import Mathlib

/-!
Shallow embedding of the authentication, session and role-permission
subsystem of Family-Hub (src/family_hub/auth/authentication.py).

Python strings are modelled as `List Char`; Python dict-shaped records as
Lean structures; the randomized salt, the generated uuids and the current
time are passed as explicit parameters; SHA-256 (an external library call)
is passed as an abstract digest function `Str → Str`.  Fallible code
(Python code that can raise) returns `Option`.
-/

set_option maxRecDepth 4000

abbrev Str := List Char

/-- Python `s.split(':')` (no maxsplit): splits on every colon, so that a
string with no colon yields one part and a string with `n` colons yields
`n + 1` parts. -/
def splitOnColon : Str → List Str
  | [] => [[]]
  | c :: rest =>
    if c = ':' then [] :: splitOnColon rest
    else
      match splitOnColon rest with
      | [] => [[c]]
      | p :: ps => (c :: p) :: ps

/-- `hash_password` from authentication.py: the digest of `salt ++ password`
followed by `':'` and the salt.  The random salt (`uuid.uuid4().hex` in the
source) and the SHA-256 hex digest function are explicit parameters. -/
def hash_password (digest : Str → Str) (salt : Str) (password : Str) : Str :=
  digest (salt ++ password) ++ ':' :: salt

/-- `check_password` from authentication.py.  Returns `some false` when the
stored record is empty or contains no `':'`; otherwise Python unpacks
`hashed_password.split(':')` into exactly two variables, which raises
`ValueError` (modelled as `none`) unless the split has exactly two parts;
with exactly two parts it recomputes the digest and compares. -/
def check_password (digest : Str → Str) (hashed_password user_password : Str) :
    Option Bool :=
  if hashed_password = [] ∨ ':' ∉ hashed_password then some false
  else
    match splitOnColon hashed_password with
    | [stored_hash, salt] => some (decide (stored_hash = digest (salt ++ user_password)))
    | _ => none

/-- The `RoleType` enum from the data model. -/
inductive RoleType where
  | ADMIN
  | PARENT
  | CHILD
  | GUEST
deriving DecidableEq, Repr

/-- The `role_hierarchy` dictionary inside `check_permission`:
higher number means more permissions. -/
def role_hierarchy : RoleType → Nat
  | RoleType.ADMIN => 3
  | RoleType.PARENT => 2
  | RoleType.CHILD => 1
  | RoleType.GUEST => 0

/-- The `User` record.  Modelled from the spec: the `User` data model lives
in `family_hub/data/models.py`, which is not under src/; fields follow
spec §3 (timestamps as abstract `Nat`). -/
structure User where
  id : Str
  username : Str
  password_hash : Str
  email : Str
  display_name : Str
  role : RoleType
  family_id : Str
  is_active : Bool
  last_login : Nat
deriving DecidableEq, Repr

/-- `check_permission` from authentication.py: an absent user
(`None`/empty dict, modelled as `none`) has no permission; otherwise both
roles are mapped through `role_hierarchy` and the ranks compared. -/
def check_permission (user_data : Option User) (required_role : RoleType) : Bool :=
  match user_data with
  | none => false
  | some u => decide (role_hierarchy u.role ≥ role_hierarchy required_role)

/-- The `Family` record.  Modelled from the spec: the `Family` data model
lives in `family_hub/data/models.py`, which is not under src/; fields
follow spec §3 (`created_by` is initially the creating username, later
rewritten to the creator's id; `members` a list of user ids). -/
structure Family where
  id : Str
  name : Str
  created_by : Str
  members : List Str
deriving DecidableEq, Repr

/-- The Record Store state.  Modelled from the spec: `DataManager` in
`family_hub/data/storage.py` is not under src/; spec §1 and §6 describe it
as a generic key-value store over User and Family records. -/
structure Store where
  users : List User
  families : List Family
deriving DecidableEq, Repr

/-- Modelled from the spec: `DataManager.get_user(id)` — lookup of a User
record by id (spec §6). -/
def get_user (st : Store) (uid : Str) : Option User :=
  st.users.find? (fun u => u.id = uid)

/-- Modelled from the spec: `DataManager.get_user_by_username(name)` —
lookup of a User record by its unique username (spec §6). -/
def get_user_by_username (st : Store) (name : Str) : Option User :=
  st.users.find? (fun u => u.username = name)

/-- Modelled from the spec: `DataManager.get_family(id)` — lookup of a
Family record by id (spec §6). -/
def get_family (st : Store) (fid : Str) : Option Family :=
  st.families.find? (fun f => f.id = fid)

/-- Upsert by id into a list of User records. -/
def upsertUser : List User → User → List User
  | [], u => [u]
  | v :: rest, u => if v.id = u.id then u :: rest else v :: upsertUser rest u

/-- Upsert by id into a list of Family records. -/
def upsertFamily : List Family → Family → List Family
  | [], f => [f]
  | g :: rest, f => if g.id = f.id then f :: rest else g :: upsertFamily rest f

/-- Modelled from the spec: `DataManager.save_user(user) -> user_with_id`
(spec §6) — persists the record, replacing any record with the same id. -/
def save_user (st : Store) (u : User) : Store :=
  { st with users := upsertUser st.users u }

/-- Modelled from the spec: `DataManager.save_family(family) ->
family_with_id` (spec §6) — persists the record, replacing any record with
the same id. -/
def save_family (st : Store) (f : Family) : Store :=
  { st with families := upsertFamily st.families f }

/-- Python truthiness test used on the optional `family_id` / `family_name`
arguments: `None` and the empty string are both falsy. -/
def optFalsy : Option Str → Bool
  | none => true
  | some s => decide (s = [])

/-- `register_user` from authentication.py, state-passing over the Record
Store.  The uuids generated for a new Family and the new User, the digest
function, the random salt and the current time are explicit parameters.
Returns the `(success, message_or_user_id)` pair of the source together
with the updated store. -/
def register_user (st : Store) (username password email display_name : Str)
    (family_id family_name : Option Str) (role : RoleType)
    (digest : Str → Str) (salt : Str)
    (freshFamilyId freshUserId : Str) (now : Nat) :
    (Bool × Str) × Store :=
  match get_user_by_username st username with
  | some _ => ((false, "Username already exists".data), st)
  | none =>
    if optFalsy family_id ∧ optFalsy family_name then
      ((false, "Either family_id or family_name must be provided".data), st)
    else
      let step :=
        if optFalsy family_id then
          let fam : Family :=
            { id := freshFamilyId
              name := family_name.getD []
              created_by := username
              members := [] }
          (freshFamilyId, save_family st fam)
        else
          (family_id.getD [], st)
      let fid := step.1
      let st1 := step.2
      let user : User :=
        { id := freshUserId
          username := username
          password_hash := hash_password digest salt password
          email := email
          display_name := display_name
          role := role
          family_id := fid
          is_active := true
          last_login := now }
      let st2 := save_user st1 user
      match get_family st2 fid with
      | none => ((true, freshUserId), st2)
      | some fam =>
        let fam1 :=
          if freshUserId ∈ fam.members then fam
          else { fam with members := fam.members ++ [freshUserId] }
        let fam2 :=
          if fam1.created_by = username then { fam1 with created_by := freshUserId }
          else fam1
        ((true, freshUserId), save_family st2 fam2)

/-- `login_user` from authentication.py.  Returns `none` when the password
check raises (malformed stored hash); otherwise the `(success, user_data)`
pair of the source together with the updated store. -/
def login_user (st : Store) (username password : Str)
    (digest : Str → Str) (now : Nat) :
    Option ((Bool × Option User) × Store) :=
  match get_user_by_username st username with
  | none => some ((false, none), st)
  | some user_data =>
    match check_password digest user_data.password_hash password with
    | none => none
    | some true =>
      let user := { user_data with last_login := now }
      some ((true, some user), save_user st user)
    | some false => some ((false, none), st)

/-- A value held in `st.session_state`: either a string or an opaque
non-string payload (e.g. the loaded configuration object). -/
inductive SVal where
  | str (s : Str)
  | blob (n : Nat)
deriving DecidableEq, Repr

/-- Python truthiness of a session value: the empty string is falsy,
non-string payloads are treated as truthy. -/
def SVal.truthy : SVal → Bool
  | SVal.str s => decide (s ≠ [])
  | SVal.blob _ => true

/-- The Streamlit `st.session_state`, modelled as an association list from
key to value. -/
abbrev Session := List (Str × SVal)

/-- Lookup of a session key (first matching entry). -/
def lookupKey : Session → Str → Option SVal
  | [], _ => none
  | (k, v) :: rest, key => if k = key then some v else lookupKey rest key

/-- Python `del st.session_state[k]` for every entry with the given key. -/
def eraseKey (s : Session) (k : Str) : Session :=
  s.filter (fun kv => kv.1 ≠ k)

/-- Python `st.session_state[k] = v`: replace the entry if the key is
present, otherwise append it. -/
def setKey : Session → Str → SVal → Session
  | [], key, v => [(key, v)]
  | (k, w) :: rest, key, v =>
    if k = key then (key, v) :: rest else (k, w) :: setKey rest key v

/-- The `keys_to_keep` allow-list inside `logout_user`. -/
def keys_to_keep : List Str :=
  ["page".data, "initialized".data, "config".data]

/-- `logout_user` from authentication.py: deletes `user_id` if present,
clears every key outside `keys_to_keep`, then sets `page` to "login". -/
def logout_user (s : Session) : Session :=
  let s1 := if (lookupKey s "user_id".data).isSome then eraseKey s "user_id".data else s
  let s2 := s1.filter (fun kv => kv.1 ∈ keys_to_keep)
  setKey s2 "page".data (SVal.str "login".data)

/-- `check_authentication` from authentication.py: reads the session's
`user_id` (present and truthy), re-fetches the User from the store, and
returns it if active.  On an inactive user it calls `logout_user` and then
evaluates the warning's f-string `st.session_state.user_id` — but
`logout_user` has just deleted that key, so the attribute access raises
`AttributeError` (modelled as a `none` result, paired with the session as
mutated by the logout); only if the key were still present would the log
line succeed and control fall through to `return False, None`.  All other
denials return `(false, none)` without touching the session.  The result is
`(some outcome, session)` for a normal return and `(none, session)` for a
raise. -/
def check_authentication (st : Store) (s : Session) :
    Option (Bool × Option User) × Session :=
  match lookupKey s "user_id".data with
  | some v =>
    if v.truthy then
      match v with
      | SVal.str uid =>
        match get_user st uid with
        | some user_data =>
          if user_data.is_active then (some (true, some user_data), s)
          else
            let s2 := logout_user s
            match lookupKey s2 "user_id".data with
            | some _ => (some (false, none), s2)
            | none => (none, s2)
        | none => (some (false, none), s)
      | SVal.blob _ => (some (false, none), s)
    else (some (false, none), s)
  | none => (some (false, none), s)

lemma splitOnColon_no_colon (a : Str) (h : ':' ∉ a) : splitOnColon a = [a] := by
  induction a with
  | nil => rfl
  | cons c cs ih =>
    have hc : ¬ c = ':' := fun hc => h (hc ▸ List.mem_cons_self c cs)
    have hcs : ':' ∉ cs := fun hm => h (List.mem_cons_of_mem c hm)
    simp [splitOnColon, hc, ih hcs]

lemma splitOnColon_single (a b : Str) (ha : ':' ∉ a) (hb : ':' ∉ b) :
    splitOnColon (a ++ ':' :: b) = [a, b] := by
  induction a with
  | nil => simp [splitOnColon, splitOnColon_no_colon b hb]
  | cons c cs ih =>
    have hc : ¬ c = ':' := fun hc => ha (hc ▸ List.mem_cons_self c cs)
    have hcs : ':' ∉ cs := fun hm => ha (List.mem_cons_of_mem c hm)
    simp [splitOnColon, hc, ih hcs]

/-- C1: verifying the record produced by hashing a password `p` with any
salt used by the hashing step (a colon-free hex string, with a digest
function whose hex output is likewise colon-free) against the same `p`
succeeds. -/
theorem hash_verify_roundtrip (digest : Str → Str) (salt password : Str)
    (hd : ∀ x, ':' ∉ digest x) (hs : ':' ∉ salt) :
    check_password digest (hash_password digest salt password) password = some true := by
  unfold check_password hash_password
  rw [if_neg, splitOnColon_single _ _ (hd _) hs]
  · simp
  · push_neg
    refine ⟨by simp, ?_⟩
    simp

/-- Witness for C1 at a concrete digest function, salt and password. -/
theorem hash_verify_roundtrip_witness :
    check_password (fun _ => "ab".data)
      (hash_password (fun _ => "ab".data) "cd".data "pw".data) "pw".data = some true :=
  hash_verify_roundtrip (fun _ => "ab".data) "cd".data "pw".data
    (fun _ => (by decide : ':' ∉ "ab".data)) (by decide)

/-- C2: for a present user, `check_permission` is true exactly when the
user's rank under GUEST:0, CHILD:1, PARENT:2, ADMIN:3 is at least the
required rank; for an absent user it is false. -/
theorem check_permission_rank_iff (u : User) (r : RoleType) :
    (check_permission (some u) r = true ↔
      role_hierarchy u.role ≥ role_hierarchy r) ∧
    check_permission none r = false := by
  constructor
  · simp [check_permission]
  · rfl

lemma splitOnColon_length (a : Str) :
    (splitOnColon a).length = a.count ':' + 1 := by
  induction a with
  | nil => simp [splitOnColon]
  | cons c cs ih =>
    by_cases hc : c = ':'
    · subst hc
      simp [splitOnColon, ih, List.count_cons]
    · cases h : splitOnColon cs with
      | nil => rw [h] at ih; simp at ih
      | cons p ps =>
        rw [h] at ih
        simp only [splitOnColon, hc, if_false, h, List.length_cons,
          List.count_cons] at ih ⊢
        simpa [hc] using ih

/-- C3 counterexample: a stored record with two `':'` separators makes
`check_password` raise `ValueError` on unpacking (modelled as `none`)
instead of returning false. -/
theorem check_password_two_colons_raises :
    check_password (fun x => x) "a:b:c".data "p".data ≠ some false ∧
    check_password (fun x => x) "a:b:c".data "p".data = none := by
  decide

/-- C3 amended: `check_password` fails closed (returns false) when the
stored record is empty or contains no `':'`; a record with two or more
`':'` characters instead raises on unpacking (modelled as `none`). -/
theorem check_password_malformed (digest : Str → Str) (hashed p : Str) :
    (hashed = [] ∨ ':' ∉ hashed → check_password digest hashed p = some false) ∧
    (2 ≤ hashed.count ':' → check_password digest hashed p = none) := by
  constructor
  · intro h
    unfold check_password
    rw [if_pos h]
  · intro h
    have hmem : ':' ∈ hashed := by
      by_contra hm
      rw [List.count_eq_zero_of_not_mem hm] at h
      omega
    have hne : hashed ≠ [] := by
      intro hnil
      subst hnil
      simp at hmem
    have hlen : 3 ≤ (splitOnColon hashed).length := by
      rw [splitOnColon_length]
      omega
    unfold check_password
    rw [if_neg (by push_neg; exact ⟨hne, hmem⟩)]
    generalize hgen : splitOnColon hashed = l at hlen ⊢
    rcases l with _ | ⟨a, _ | ⟨b, _ | ⟨c, t⟩⟩⟩
    · simp at hlen
    · simp at hlen
    · simp at hlen
    · rfl

/-- Witness for C3's amended theorem at concrete inputs on both branches. -/
theorem check_password_malformed_witness :
    check_password (fun x => x) "ab".data "p".data = some false ∧
    check_password (fun x => x) "a:b:c".data "q".data = none :=
  ⟨(check_password_malformed (fun x => x) "ab".data "p".data).1 (by decide),
   (check_password_malformed (fun x => x) "a:b:c".data "q".data).2 (by decide)⟩

/-- A sample user record for concrete instances. -/
def uAlice : User :=
  { id := "u1".data
    username := "alice".data
    password_hash := "h:s".data
    email := "a@x".data
    display_name := "Alice".data
    role := RoleType.PARENT
    family_id := "f1".data
    is_active := true
    last_login := 0 }

/-- C4 counterexample: with neither family selector supplied but the
username already present in the store, `register_user` reports the
duplicate-username failure, not the missing-family-selector failure —
the username lookup runs first. -/
theorem register_order_counterexample :
    (register_user (Store.mk [uAlice] []) "alice".data "pw".data "e".data
        "d".data none none RoleType.PARENT (fun x => x) "s".data
        "f9".data "u9".data 0).1
      = (false, "Username already exists".data) ∧
    "Username already exists".data ≠
      "Either family_id or family_name must be provided".data := by
  constructor
  · rfl
  · decide

/-- C4 amended: the username lookup precedes the family-selector check;
with neither `family_id` nor `family_name` supplied, `register_user`
returns the missing-family-selector failure (and leaves the store
unchanged) provided the username is not already taken. -/
theorem register_missing_family_selector (st : Store)
    (username password email display_name : Str) (role : RoleType)
    (digest : Str → Str) (salt ffid fuid : Str) (now : Nat)
    (hu : get_user_by_username st username = none) :
    register_user st username password email display_name none none role
        digest salt ffid fuid now
      = ((false, "Either family_id or family_name must be provided".data), st) := by
  unfold register_user
  rw [hu]
  simp [optFalsy]

/-- Witness for C4's amended theorem on the empty store. -/
theorem register_missing_family_selector_witness :
    register_user (Store.mk [] []) "alice".data "pw".data "e".data "d".data
        none none RoleType.PARENT (fun x => x) "s".data "f9".data "u9".data 0
      = ((false, "Either family_id or family_name must be provided".data),
         Store.mk [] []) :=
  register_missing_family_selector (Store.mk [] []) "alice".data "pw".data
    "e".data "d".data RoleType.PARENT (fun x => x) "s".data "f9".data
    "u9".data 0 (by decide)

/-- C5: when the username already maps to an existing user,
`register_user` fails with the duplicate-username message and returns the
store exactly as it was — no user or family record is created or
modified. -/
theorem register_duplicate_username_no_writes (st : Store)
    (username password email display_name : Str)
    (family_id family_name : Option Str) (role : RoleType)
    (digest : Str → Str) (salt ffid fuid : Str) (now : Nat) (u : User)
    (hu : get_user_by_username st username = some u) :
    register_user st username password email display_name family_id
        family_name role digest salt ffid fuid now
      = ((false, "Username already exists".data), st) := by
  unfold register_user
  rw [hu]

/-- Witness for C5 on a store already holding the username. -/
theorem register_duplicate_username_no_writes_witness :
    register_user (Store.mk [uAlice] []) "alice".data "pw".data "e".data
        "d".data none (some "Smiths".data) RoleType.PARENT (fun x => x)
        "s".data "f9".data "u9".data 0
      = ((false, "Username already exists".data), Store.mk [uAlice] []) :=
  register_duplicate_username_no_writes (Store.mk [uAlice] []) "alice".data
    "pw".data "e".data "d".data none (some "Smiths".data) RoleType.PARENT
    (fun x => x) "s".data "f9".data "u9".data 0 uAlice (by decide)

lemma find_upsertFamily (l : List Family) (f : Family) :
    (upsertFamily l f).find? (fun g => g.id = f.id) = some f := by
  induction l with
  | nil => simp [upsertFamily]
  | cons g rest ih =>
    by_cases h : g.id = f.id
    · simp [upsertFamily, h]
    · simp [upsertFamily, h, ih]

lemma get_family_save_family (st : Store) (f : Family) (fid : Str)
    (h : f.id = fid) : get_family (save_family st f) fid = some f := by
  subst h
  exact find_upsertFamily st.families f

lemma get_family_save_user (st : Store) (u : User) (fid : Str) :
    get_family (save_user st u) fid = get_family st fid := rfl

lemma register_new_family_eq (st : Store)
    (username password email display_name fname : Str) (role : RoleType)
    (digest : Str → Str) (salt ffid fuid : Str) (now : Nat)
    (hu : get_user_by_username st username = none) (hf : fname ≠ []) :
    register_user st username password email display_name none (some fname)
        role digest salt ffid fuid now
      = ((true, fuid),
         save_family
           (save_user (save_family st (Family.mk ffid fname username []))
              (User.mk fuid username (hash_password digest salt password)
                email display_name role ffid true now))
           (Family.mk ffid fname fuid [fuid])) := by
  unfold register_user
  rw [hu]
  rw [if_neg (by simp [optFalsy, hf])]
  simp only [optFalsy, eq_self_iff_true, if_true, Option.getD_some]
  rw [get_family_save_user, get_family_save_family _ _ _ rfl]
  simp

/-- C6: a successful registration that creates a new family (family_name
given, no family_id) leaves the persisted Family with `created_by` equal to
the generated user id and that user id in `members`. -/
theorem register_new_family_resolves_created_by (st : Store)
    (username password email display_name fname : Str) (role : RoleType)
    (digest : Str → Str) (salt ffid fuid : Str) (now : Nat)
    (hu : get_user_by_username st username = none) (hf : fname ≠ []) :
    (register_user st username password email display_name none (some fname)
        role digest salt ffid fuid now).1 = (true, fuid) ∧
    ∃ fam : Family,
      get_family (register_user st username password email display_name none
          (some fname) role digest salt ffid fuid now).2 ffid = some fam ∧
      fam.created_by = fuid ∧ fuid ∈ fam.members := by
  rw [register_new_family_eq st username password email display_name fname
    role digest salt ffid fuid now hu hf]
  exact ⟨rfl, Family.mk ffid fname fuid [fuid],
    get_family_save_family _ _ _ rfl, rfl, by simp⟩

/-- Witness for C6: registering "alice" with a fresh family "Smiths" on the
empty store. -/
theorem register_new_family_resolves_created_by_witness :
    (register_user (Store.mk [] []) "alice".data "pw".data "e".data "d".data
        none (some "Smiths".data) RoleType.PARENT (fun x => x) "s".data
        "f9".data "u9".data 0).1 = (true, "u9".data) ∧
    ∃ fam : Family,
      get_family (register_user (Store.mk [] []) "alice".data "pw".data
          "e".data "d".data none (some "Smiths".data) RoleType.PARENT
          (fun x => x) "s".data "f9".data "u9".data 0).2 "f9".data = some fam ∧
      fam.created_by = "u9".data ∧ "u9".data ∈ fam.members :=
  register_new_family_resolves_created_by (Store.mk [] []) "alice".data
    "pw".data "e".data "d".data "Smiths".data RoleType.PARENT (fun x => x)
    "s".data "f9".data "u9".data 0 (by decide) (by decide)

/-- C7: a login with an existing username but wrong password and a login
with a nonexistent username return the very same caller-visible value —
`(success := false, user := none)` with the store untouched. -/
theorem login_failures_indistinguishable (st : Store)
    (name1 pw1 name2 pw2 : Str) (digest : Str → Str) (now : Nat) (usr : User)
    (h1 : get_user_by_username st name1 = some usr)
    (hwrong : check_password digest usr.password_hash pw1 = some false)
    (h2 : get_user_by_username st name2 = none) :
    login_user st name1 pw1 digest now = some ((false, none), st) ∧
    login_user st name2 pw2 digest now = some ((false, none), st) := by
  constructor
  · unfold login_user
    rw [h1]
    simp only [hwrong]
  · unfold login_user
    rw [h2]

/-- Witness for C7: wrong password for "alice" versus unknown "bob". -/
theorem login_failures_indistinguishable_witness :
    login_user (Store.mk [uAlice] []) "alice".data "wrong".data
        (fun _ => "zz".data) 0 = some ((false, none), Store.mk [uAlice] []) ∧
    login_user (Store.mk [uAlice] []) "bob".data "pw".data
        (fun _ => "zz".data) 0 = some ((false, none), Store.mk [uAlice] []) :=
  login_failures_indistinguishable (Store.mk [uAlice] []) "alice".data
    "wrong".data "bob".data "pw".data (fun _ => "zz".data) 0 uAlice
    (by decide) (by decide) (by decide)

/-- C10: registering with an existing `family_id` whose family already has
`created_by` equal to the new username rewrites that pre-existing family's
`created_by` to the newly generated user id — the repair is not limited to
families created within the same call. -/
theorem register_existing_family_created_by_overwritten :
    (register_user
        (Store.mk [] [Family.mk "f1".data "Fam".data "bob".data []])
        "bob".data "pw".data "e".data "d".data (some "f1".data) none
        RoleType.PARENT (fun x => x) "s".data "f9".data "u9".data 0).1
      = (true, "u9".data) ∧
    get_family (register_user
        (Store.mk [] [Family.mk "f1".data "Fam".data "bob".data []])
        "bob".data "pw".data "e".data "d".data (some "f1".data) none
        RoleType.PARENT (fun x => x) "s".data "f9".data "u9".data 0).2
        "f1".data
      = some (Family.mk "f1".data "Fam".data "u9".data ["u9".data]) := by
  constructor
  · rfl
  · rfl

lemma lookupKey_filter_none (l : Session) (p : Str × SVal → Bool) (k : Str)
    (h : ∀ v, p (k, v) = false) : lookupKey (l.filter p) k = none := by
  induction l with
  | nil => rfl
  | cons kv rest ih =>
    obtain ⟨k2, v2⟩ := kv
    by_cases hp : p (k2, v2) = true
    · have hne : k2 ≠ k := by
        intro he
        subst he
        rw [h v2] at hp
        exact Bool.false_ne_true hp
      simp [List.filter_cons, hp, lookupKey, hne, ih]
    · simp [List.filter_cons, hp, lookupKey, ih]

lemma lookupKey_filter_all (l : Session) (p : Str × SVal → Bool) (k : Str)
    (h : ∀ v, p (k, v) = true) : lookupKey (l.filter p) k = lookupKey l k := by
  induction l with
  | nil => rfl
  | cons kv rest ih =>
    obtain ⟨k2, v2⟩ := kv
    by_cases he : k2 = k
    · subst he
      simp [List.filter_cons, h v2, lookupKey]
    · by_cases hp : p (k2, v2) = true
      · simp [List.filter_cons, hp, lookupKey, he, ih]
      · simp [List.filter_cons, hp, lookupKey, he, ih]

lemma lookupKey_setKey_self (s : Session) (k : Str) (v : SVal) :
    lookupKey (setKey s k v) k = some v := by
  induction s with
  | nil => simp [setKey, lookupKey]
  | cons kv rest ih =>
    obtain ⟨k2, w⟩ := kv
    by_cases he : k2 = k
    · simp [setKey, he, lookupKey]
    · simp [setKey, he, lookupKey, ih]

lemma lookupKey_setKey_other (s : Session) (k k2 : Str) (v : SVal)
    (h : k2 ≠ k) : lookupKey (setKey s k v) k2 = lookupKey s k2 := by
  induction s with
  | nil => simp [setKey, lookupKey, Ne.symm h]
  | cons kv rest ih =>
    obtain ⟨k3, w⟩ := kv
    by_cases he : k3 = k
    · subst he
      simp [setKey, lookupKey, Ne.symm h]
    · simp [setKey, he, lookupKey, ih]

lemma lookupKey_eraseKey_other (s : Session) (k k2 : Str) (h : k2 ≠ k) :
    lookupKey (eraseKey s k) k2 = lookupKey s k2 := by
  unfold eraseKey
  apply lookupKey_filter_all
  intro v
  simp [h]

lemma logout_not_kept (s : Session) (k : Str) (hk : k ∉ keys_to_keep) :
    lookupKey (logout_user s) k = none := by
  have hpage : k ≠ "page".data := by
    intro he
    subst he
    exact hk (by simp [keys_to_keep])
  unfold logout_user
  rw [lookupKey_setKey_other _ _ _ _ hpage]
  apply lookupKey_filter_none
  intro v
  simp [hk]

lemma logout_kept (s : Session) (k : Str) (hk : k ∈ keys_to_keep)
    (hpage : k ≠ "page".data) (huid : k ≠ "user_id".data) :
    lookupKey (logout_user s) k = lookupKey s k := by
  unfold logout_user
  rw [lookupKey_setKey_other _ _ _ _ hpage]
  rw [lookupKey_filter_all _ _ _ (fun v => by simp [hk])]
  by_cases h : (lookupKey s ("user_id".data)).isSome
  · simp only [h, if_true]
    exact lookupKey_eraseKey_other _ _ _ huid
  · simp [h]

lemma logout_page_is_login (s : Session) :
    lookupKey (logout_user s) "page".data = some (SVal.str "login".data) := by
  unfold logout_user
  exact lookupKey_setKey_self _ _ _

/-- C9 counterexample: the navigation page does not survive a logout
unchanged — a session on page "dashboard" ends up on page "login". -/
theorem logout_page_not_preserved :
    lookupKey (logout_user [("page".data, SVal.str "dashboard".data)])
        "page".data = some (SVal.str "login".data) ∧
    lookupKey [(("page".data : Str), SVal.str "dashboard".data)] "page".data
      = some (SVal.str "dashboard".data) ∧
    SVal.str "login".data ≠ SVal.str "dashboard".data := by
  decide

/-- C9 amended: after `logout_user` the `user_id` is gone and every key
outside the allow-list is removed; the `initialized` flag and `config`
survive unchanged, while `page` is kept from clearing but then set to
"login". -/
theorem logout_clears_except_allowlist (s : Session) :
    lookupKey (logout_user s) "user_id".data = none ∧
    (∀ k, k ∉ keys_to_keep → lookupKey (logout_user s) k = none) ∧
    lookupKey (logout_user s) "initialized".data
      = lookupKey s "initialized".data ∧
    lookupKey (logout_user s) "config".data = lookupKey s "config".data ∧
    lookupKey (logout_user s) "page".data = some (SVal.str "login".data) :=
  ⟨logout_not_kept s _ (by decide),
   fun k hk => logout_not_kept s k hk,
   logout_kept s _ (by simp [keys_to_keep]) (by decide) (by decide),
   logout_kept s _ (by simp [keys_to_keep]) (by decide) (by decide),
   logout_page_is_login s⟩

/-- A sample session for concrete instances. -/
def sSample : Session :=
  [("user_id".data, SVal.str "u2".data), ("cart".data, SVal.blob 5),
   ("config".data, SVal.blob 7), ("page".data, SVal.str "dashboard".data)]

/-- Witness for C9's amended theorem on a concrete session. -/
theorem logout_clears_except_allowlist_witness :
    lookupKey (logout_user sSample) "user_id".data = none ∧
    lookupKey (logout_user sSample) "cart".data = none ∧
    lookupKey (logout_user sSample) "config".data
      = lookupKey sSample "config".data ∧
    lookupKey (logout_user sSample) "page".data
      = some (SVal.str "login".data) :=
  ⟨(logout_clears_except_allowlist sSample).1,
   (logout_clears_except_allowlist sSample).2.1 ("cart".data) (by decide),
   (logout_clears_except_allowlist sSample).2.2.2.1,
   (logout_clears_except_allowlist sSample).2.2.2.2⟩

/-- An inactive sample user for concrete instances. -/
def uCarol : User :=
  { id := "u2".data
    username := "carol".data
    password_hash := "h:s".data
    email := "c@x".data
    display_name := "Carol".data
    role := RoleType.CHILD
    family_id := "f1".data
    is_active := false
    last_login := 0 }

/-- C8 (code bug, at the failing input): with the deactivated user "carol"
logged in, `check_authentication` performs the full logout — `user_id`
removed, non-allow-listed keys such as `cart` cleared — but then raises
`AttributeError` (result `none`) at the warning's f-string, which reads
the `user_id` the logout just deleted, instead of returning the
`(false, none)` the claim and the function's own docstring promise. -/
theorem check_authentication_inactive_raises :
    check_authentication (Store.mk [uCarol] []) sSample
      = (none, logout_user sSample) ∧
    lookupKey (logout_user sSample) "user_id".data = none ∧
    lookupKey (logout_user sSample) "cart".data = none := by
  decide
